import Mathlib

/-!
Verification of the admin/applicant-tracking backend (Express + MySQL, main
server file `src/unnamed/part_003`) against its natural-language
specification.

The relational store is shallowly embedded: each table is a list of rows,
each row a structure whose fields are the columns the routes read or write.
JSON columns are modelled by their parsed values.  Every route handler that
a claim mentions is embedded as a pure function from the database state
(and the request) to an HTTP status code and the successor database state.
Transactions are modelled by returning the original state on the failure
paths; statements that can fail inside a transaction are driven by
explicit failure oracles.

Notes on the embedding:
* `shortlisted_candidates` rows are the spec's PipelineEntry records.
* The `applicants` table has exactly the columns its `CREATE TABLE`
  statement declares (part_003 lines 114 to 131).  Several queries name
  columns outside that list (`full_name`, `email`, `phone`, `steps_json`,
  `fields_json`); such a statement fails with MySQL error 1054 (unknown
  column) instead of returning rows, and the handler's catch block answers
  500.  The embedding derives this from the declared column list
  (`applicantsColumns` / `applicantsSelectOk`) rather than asserting it.
* SQL `WHERE col = 'literal'` on strings is modelled as exact string
  equality; collation is a database-engine detail outside the spec's scope.
* `affectedRows` of an UPDATE is modelled as the number of rows matched by
  the WHERE clause.
-/

/-! ### Data model -/

/-- A JSON value, used to model the JSON-typed columns and the JSON request
bodies.  A stored JSON column is modelled by its parsed value. -/
inductive Json where
  | null : Json
  | bool (b : Bool) : Json
  | num (n : Int) : Json
  | str (s : String) : Json
  | arr (elems : List Json) : Json
  | obj (fields : List (String × Json)) : Json
deriving Repr

/-- JavaScript truthiness of a JSON value (used by the handlers that test a
request field with `x ? ... : ...` or `x || ...`). -/
def Json.truthy : Json → Bool
  | .null => false
  | .bool b => b
  | .num n => n != 0
  | .str s => s != ""
  | .arr _ => true
  | .obj _ => true

/-- Truthiness of a possibly-absent (`undefined`) JSON request field. -/
def jsTruthyOpt : Option Json → Bool
  | none => false
  | some j => j.truthy

/-- JavaScript `a || b` on possibly-absent JSON values. -/
def jsOr (a b : Option Json) : Option Json :=
  if jsTruthyOpt a then a else b

/-- JavaScript `x || d` where `d` is a constant default: the supplied value
when it is truthy, the default otherwise. -/
def jsOrDefault (a : Option Json) (d : Json) : Json :=
  match a with
  | some v => if v.truthy then v else d
  | none => d

/-- One entry of a submitted `basicFormData` array: the handlers read the
`label`, `name` and `value` properties, any of which may be absent. -/
structure BasicField where
  label : Option String
  name : Option String
  value : Option String
deriving Repr, DecidableEq

/-- A row of `job_posts`. -/
structure JobPosting where
  id : Nat
  uuid : String
  job_title : String
  slug : String
  details : Json
  description : Json
deriving Repr

/-- A row of `job_application_forms` (the posting's form schema). -/
structure FormSchemaRow where
  id : Nat
  uuid : String
  job_post_id : Nat
  basicFormSchema : Json
  applicationFormSchema : Json
deriving Repr

/-- A row of `applicants`, with exactly the columns of its `CREATE TABLE`
statement (part_003 lines 114 to 131): the table has no contact columns.
`basicFormData` / `applicationFormData` are the JSON columns, modelled by
their parsed values. -/
structure Applicant where
  id : Nat
  uuid : String
  job_id : Nat
  basicFormData : List BasicField
  applicationFormData : Json
  resume_path : Option String
deriving Repr

/-- The column names of the `applicants` table, per its `CREATE TABLE`
statement (part_003 lines 114 to 131). -/
def applicantsColumns : List String :=
  ["id", "uuid", "job_id", "basicFormData", "applicationFormData",
   "resume_path", "created_at", "updated_at"]

/-- Whether a query that references the given `applicants` columns can
run: a statement naming a column outside the table's declared list fails
with MySQL error 1054 (unknown column) instead of returning rows, and the
enclosing handler's catch block answers 500. -/
def applicantsSelectOk (cols : List String) : Bool :=
  cols.all (fun c => applicantsColumns.contains c)

/-- A row of `shortlisted_candidates` — the spec's PipelineEntry. -/
structure PipelineEntry where
  id : Nat
  job_post_id : Nat
  applicant_id : Nat
  full_name : String
  email : String
  phone : String
  rating : Int
  status : String
  stage : String
  note : Option String
deriving Repr, DecidableEq

/-- The database state: one list of rows per table the claims touch. -/
structure DB where
  job_posts : List JobPosting
  job_application_forms : List FormSchemaRow
  applicants : List Applicant
  shortlisted_candidates : List PipelineEntry
deriving Repr

/-- Fresh AUTO_INCREMENT id for `shortlisted_candidates`: one more than the
largest id in use. -/
def nextScId (l : List PipelineEntry) : Nat :=
  l.foldr (fun e m => max e.id m) 0 + 1

/-- Fresh AUTO_INCREMENT id for `applicants`. -/
def nextApplicantId (l : List Applicant) : Nat :=
  l.foldr (fun a m => max a.id m) 0 + 1

/-- The rows of `shortlisted_candidates` belonging to one applicant
(`WHERE applicant_id = ?`). -/
def entriesFor (db : DB) (id : Nat) : List PipelineEntry :=
  db.shortlisted_candidates.filter (fun e => e.applicant_id == id)

/-! ### PATCH /applicants/:id/stage (part_003 lines 975 to 1109) -/

/-- The SET clause of the stage update (part_003 lines 1020–1042): each of
stage, status, note is overwritten exactly when the corresponding request
field was supplied; every other column keeps its value. -/
def applyStageUpdate (stageId status note : Option String) (e : PipelineEntry) : PipelineEntry :=
  { e with
    stage := stageId.getD e.stage
    status := status.getD e.status
    note := match note with
      | some n => some n
      | none => e.note }

/-- Handler of `PATCH /applicants/:id/stage`.  Returns the HTTP status code
and the successor database state.  Request fields are `none` when absent
from the body.  Control flow, in source order: look for existing shortlist
rows; if there are none, the lazy-create branch runs
`SELECT job_id, full_name, email, phone FROM applicants WHERE id = ?`
(part_003 lines 989 to 992) — `full_name`, `email` and `phone` are not
columns of the `applicants` table (`stage_lazy_create_select_fails`), so
the statement throws before the existence check or the INSERT and the
catch block answers 500 with nothing written.  Otherwise: 400 when no
field was supplied; the UPDATE rewrites every row with the applicant's id
and commits on its own autocommit statement; 404 when it matched nothing;
then the re-fetch joins `applicants` selecting `a.full_name`, `a.email`,
`a.phone`, `a.steps_json`, `a.fields_json` (part_003 lines 1051 to 1074),
columns the table does not define, so it throws and the handler answers
500 — with the already-committed UPDATE persisting. -/
def patchApplicantStage (db : DB) (id : Nat) (stageId status note : Option String) :
    Nat × DB :=
  let existing := db.shortlisted_candidates.filter (fun e => e.applicant_id == id)
  if existing.isEmpty then
    (500, db)
  else
    if stageId.isNone && status.isNone && note.isNone then
      (400, db)
    else
      let matched := db.shortlisted_candidates.filter (fun e => e.applicant_id == id)
      let updated := db.shortlisted_candidates.map
        (fun e => if e.applicant_id == id then applyStageUpdate stageId status note e else e)
      let db2 := { db with shortlisted_candidates := updated }
      if matched.isEmpty then (404, db2)
      else
        if applicantsSelectOk ["id", "full_name", "email", "phone", "resume_path",
            "steps_json", "fields_json", "created_at", "job_id"] then
          match db2.applicants.find? (fun a => a.id == id) with
          | none => (404, db2)
          | some a =>
            if db2.job_posts.any (fun j => j.id == a.job_id) &&
               db2.shortlisted_candidates.any (fun e => e.applicant_id == id) then
              (200, db2)
            else (404, db2)
        else (500, db2)

/-! ### POST /applicants (part_003 lines 699 to 802) -/

/-- A `basicFormData` request field as received by the intake handler: an
array of fields (either sent as an object or as a JSON string that
parses), a string that fails `JSON.parse`, or absent. -/
inductive BasicFormVal where
  | val (fields : List BasicField) : BasicFormVal
  | malformed : BasicFormVal
  | absent : BasicFormVal
deriving Repr, DecidableEq

/-- An `applicationFormData` request field: a JSON value, a string that
fails `JSON.parse`, or absent. -/
inductive AppFormVal where
  | val (j : Json) : AppFormVal
  | malformed : AppFormVal
  | absent : AppFormVal
deriving Repr

/-- An applicant-submission request.  `job_id` is `none` when missing or
empty; `resume` is the uploaded file's name when a PDF was attached (in
which case multer has already written the file to disk before the handler
runs). -/
structure SubmitReq where
  job_id : Option Nat
  basicFormData : BasicFormVal
  applicationFormData : AppFormVal
  resume : Option String

/-- The full-name scan over `basicFormData` (part_003 lines 715–717). -/
def findFullName (l : List BasicField) : Option BasicField :=
  l.find? (fun f =>
    f.label == some "Full Name" || f.name == some "full_name" || f.name == some "fullName")

/-- The email scan over `basicFormData` (part_003 lines 718–720). -/
def findEmail (l : List BasicField) : Option BasicField :=
  l.find? (fun f => f.label == some "Email" || f.name == some "email")

/-- The phone scan over `basicFormData` (part_003 lines 721–723). -/
def findPhone (l : List BasicField) : Option BasicField :=
  l.find? (fun f => f.label == some "Phone" || f.name == some "phone")

/-- The extracted value of a scanned field: `field?.value || ''`. -/
def fieldValue (f : Option BasicField) : String :=
  (f.bind (fun x => x.value)).getD ""

/-- Outcome of an applicant submission: the HTTP status code, the successor
database state, and whether the uploaded resume file is still on disk when
the handler returns. -/
structure SubmitOutcome where
  code : Nat
  db : DB
  fileKept : Bool
deriving Repr

/-- Handler of `POST /applicants`.  `fail1` / `fail2` are failure oracles
for the two INSERT statements of the transaction (true = the statement
throws).  Control flow, in source order: `JSON.parse` the form-data fields
(a parse failure throws into the catch block: rollback, unlink the file if
any, 500); extract full name / email / phone; 400 when job_id, full name
or email is missing (the file, if written, is not removed on this path);
400 when no resume was attached; then, inside one transaction, insert the
applicant row and its pipeline entry seeded with rating 0, status
"New Application", stage "Application Screening"; any statement failure
rolls both inserts back, unlinks the file and returns 500. -/
def submitApplicant (db : DB) (req : SubmitReq) (fail1 fail2 : Bool) : SubmitOutcome :=
  match req.basicFormData, req.applicationFormData with
  | .malformed, _ => { code := 500, db := db, fileKept := false }
  | _, .malformed => { code := 500, db := db, fileKept := false }
  | bfd, afd =>
    let fields := match bfd with
      | .val l => some l
      | _ => none
    let full_name := fieldValue (fields.bind findFullName)
    let email := fieldValue (fields.bind findEmail)
    let phone := fieldValue (fields.bind findPhone)
    match req.job_id with
    | none => { code := 400, db := db, fileKept := req.resume.isSome }
    | some jid =>
      if full_name == "" || email == "" then
        { code := 400, db := db, fileKept := req.resume.isSome }
      else
        match req.resume with
        | none => { code := 400, db := db, fileKept := false }
        | some fname =>
          if fail1 || fail2 then
            { code := 500, db := db, fileKept := false }
          else
            let aid := nextApplicantId db.applicants
            { code := 201
              db := { db with
                applicants := db.applicants ++
                  [{ id := aid
                     uuid := ""
                     job_id := jid
                     basicFormData := fields.getD []
                     applicationFormData := match afd with
                       | .val j => j
                       | _ => Json.obj []
                     resume_path := some ("/uploads/resumes/" ++ fname) }]
                shortlisted_candidates := db.shortlisted_candidates ++
                  [{ id := nextScId db.shortlisted_candidates
                     job_post_id := jid
                     applicant_id := aid
                     full_name := full_name
                     email := email
                     phone := phone
                     rating := 0
                     status := "New Application"
                     stage := "Application Screening"
                     note := none }] }
              fileKept := true }

/-! ### Filtered pipeline listers (part_003 lines 860 to 969) -/

/-- The rows returned by one of the filtered listers: `shortlisted_candidates`
inner-joined with `applicants` and `job_posts`, filtered by exact equality
of the status column with the given literal. -/
def statusView (db : DB) (statusLit : String) : List PipelineEntry :=
  db.shortlisted_candidates.filter (fun e =>
    db.applicants.any (fun a => a.id == e.applicant_id) &&
    db.job_posts.any (fun j => j.id == e.job_post_id) &&
    e.status == statusLit)

/-- Handler of `GET /applicants/shortlisted` (part_003 lines 860 to 899):
the HTTP status and the returned rows.  Its SELECT references
`a.resume_path`, `a.basicFormData`, `a.applicationFormData`,
`a.steps_json` and `a.fields_json` on `applicants`; the last two are not
columns of the table, so the query always fails with unknown-column and
the route answers 500 with no rows. -/
def shortlistedView (db : DB) : Nat × List PipelineEntry :=
  if applicantsSelectOk ["resume_path", "basicFormData", "applicationFormData",
      "steps_json", "fields_json"] then
    (200, statusView db "Shortlisted")
  else (500, [])

/-- Handler of `GET /applicants/rejected` (part_003 lines 901 to 933): its
SELECT references only `a.resume_path` on `applicants`, which exists, so
the filtered join runs and is returned with 200. -/
def rejectedView (db : DB) : Nat × List PipelineEntry :=
  if applicantsSelectOk ["resume_path"] then
    (200, statusView db "Rejected")
  else (500, [])

/-- Handler of `GET /applicants/hired` (part_003 lines 936 to 969): its
SELECT references only `a.resume_path` on `applicants`, which exists, so
the filtered join runs and is returned with 200. -/
def hiredView (db : DB) : Nat × List PipelineEntry :=
  if applicantsSelectOk ["resume_path"] then
    (200, statusView db "Hired")
  else (500, [])

/-! ### PATCH /jobs/:id (part_003 lines 539 to 641) -/

/-- A job-update request body.  `none` models an absent (or null, for the
`??`-guarded fields) request field. -/
structure JobPatchReq where
  title : Option String
  slug : Option String
  details : Option Json
  description : Option Json
  basicFormSchema : Option Json
  applicationFormSchema : Option Json
  applicationForm : Option Json

/-- Merge step `x ? JSON.stringify(x) : existing`: the supplied value when
truthy, the stored value otherwise (part_003 lines 574–580). -/
def jsKeep (o : Option Json) (old : Json) : Json :=
  match o with
  | some d => if d.truthy then d else old
  | none => old

/-- Handler of `PATCH /jobs/:id`.  404 when the posting does not exist;
otherwise, in one transaction, overwrite the posting's row with the merged
values and overwrite every `job_application_forms` row of the posting with
the supplied schemas or their empty defaults. -/
def patchJob (db : DB) (id : Nat) (r : JobPatchReq) : Nat × DB :=
  match db.job_posts.find? (fun j => j.id == id) with
  | none => (404, db)
  | some existing =>
    let updatedTitle := r.title.getD existing.job_title
    let updatedSlug := r.slug.getD existing.slug
    let updatedDetails := jsKeep r.details existing.details
    let updatedDescription := jsKeep r.description existing.description
    let newBasic := jsOrDefault r.basicFormSchema (Json.arr [])
    let newApp := jsOrDefault (jsOr r.applicationFormSchema r.applicationForm) (Json.obj [])
    let posts := db.job_posts.map (fun j =>
      if j.id == id then
        { j with job_title := updatedTitle, slug := updatedSlug,
                 details := updatedDetails, description := updatedDescription }
      else j)
    let forms := db.job_application_forms.map (fun f =>
      if f.job_post_id == id then
        { f with basicFormSchema := newBasic, applicationFormSchema := newApp }
      else f)
    (200, { db with job_posts := posts, job_application_forms := forms })

/-! ### DELETE /jobs/:id (part_003 lines 645 to 694), cascade per createTables -/

/-- Handler of `DELETE /jobs/:id`.  404 when the posting does not exist;
otherwise the DELETE removes the posting and, per the schema's
ON DELETE CASCADE clauses, every `job_application_forms` row and
`applicants` row of the posting, and every `shortlisted_candidates` row
referencing the posting or one of its deleted applicants. -/
def deleteJob (db : DB) (id : Nat) : Nat × DB :=
  if db.job_posts.any (fun j => j.id == id) then
    (200,
     { job_posts := db.job_posts.filter (fun j => !(j.id == id))
       job_application_forms := db.job_application_forms.filter (fun f => !(f.job_post_id == id))
       applicants := db.applicants.filter (fun a => !(a.job_id == id))
       shortlisted_candidates := db.shortlisted_candidates.filter (fun e =>
         !(e.job_post_id == id) &&
         !(db.applicants.any (fun a => (a.job_id == id) && (a.id == e.applicant_id)))) })
  else (404, db)

/-! ### POST /signup (part_003 lines 200 to 231) -/

/-- One of the symbol characters of the password regex's fixed set
`!@#$%^&*`. -/
def isPasswordSymbol (c : Char) : Bool :=
  c == '!' || c == '@' || c == '#' || c == '$' || c == '%' || c == '^' || c == '&' || c == '*'

/-- A character matched by the regex's character class `[A-Za-z\d!@#$%^&*]`:
an ASCII letter, an ASCII digit, or one of the fixed symbols. -/
def isPasswordChar (c : Char) : Bool :=
  c.isLower || c.isUpper || c.isDigit || isPasswordSymbol c

/-- Semantics of the signup password regex
`^(?=.*[a-z])(?=.*[A-Z])(?=.*\d)(?=.*[!@#$%^&*])[A-Za-z\d!@#$%^&*]{8,}$`
(part_003 lines 203–204): the whole string consists of at least 8
characters drawn from the class, and the four lookaheads require at least
one lowercase letter, one uppercase letter, one digit, and one symbol of
the fixed set. -/
def passwordRegexTest (p : String) : Bool :=
  decide (8 ≤ p.data.length) &&
  p.data.all isPasswordChar &&
  p.data.any (fun c => c.isLower) &&
  p.data.any (fun c => c.isUpper) &&
  p.data.any (fun c => c.isDigit) &&
  p.data.any isPasswordSymbol

/-- The complexity policy in the spec's words: "minimum 8 characters, at
least one lowercase, one uppercase, one digit, one symbol from a fixed
set" — with no restriction on the remaining characters.  This definition
follows the spec, to be compared with `passwordRegexTest`, which follows
the source. -/
def specPasswordPolicy (p : String) : Bool :=
  decide (8 ≤ p.data.length) &&
  p.data.any (fun c => c.isLower) &&
  p.data.any (fun c => c.isUpper) &&
  p.data.any (fun c => c.isDigit) &&
  p.data.any isPasswordSymbol

/-- A row of `admin_users`, reduced to the columns the signup path reads. -/
structure AdminUser where
  id : Nat
  email : String
deriving Repr, DecidableEq

/-- Result of a signup request, distinguishing the password-policy 400
(the ValidationError) from the duplicate-email 400 (the ConflictError). -/
inductive SignupResult where
  | passwordInvalid : SignupResult
  | emailExists : SignupResult
  | registered : SignupResult
deriving Repr, DecidableEq

/-- Handler of `POST /signup`: reject the password unless it matches the
complexity regex, then reject a duplicate email, then insert the account. -/
def signup (users : List AdminUser) (email password : String) :
    SignupResult × List AdminUser :=
  if !(passwordRegexTest password) then (.passwordInvalid, users)
  else if users.any (fun u => u.email == email) then (.emailExists, users)
  else (.registered, users ++ [{ id := users.foldr (fun u m => max u.id m) 0 + 1, email := email }])

/-! ### Sample rows and requests for the concrete witnesses -/

/-- A sample posting used by the concrete witnesses. -/
def sampleJob : JobPosting :=
  { id := 1, uuid := "j-1", job_title := "Engineer", slug := "eng-1",
    details := Json.obj [("department", Json.str "R&D")], description := Json.obj [] }

/-- A sample applicant (id 7, applying to posting 1) used by the witnesses. -/
def sampleApplicant : Applicant :=
  { id := 7, uuid := "a-7", job_id := 1, basicFormData := [],
    applicationFormData := Json.obj [], resume_path := some "/uploads/resumes/r.pdf" }

/-- A sample database with one posting and one applicant that has no
pipeline row yet. -/
def sampleDB1 : DB :=
  { job_posts := [sampleJob], job_application_forms := [],
    applicants := [sampleApplicant], shortlisted_candidates := [] }

/-- A sample pipeline entry for applicant 7 / posting 1. -/
def sampleEntry : PipelineEntry :=
  { id := 3, job_post_id := 1, applicant_id := 7, full_name := "Jo",
    email := "jo@x.com", phone := "123", rating := 0,
    status := "New Application", stage := "Application Screening", note := none }

/-- A second pipeline entry for the same applicant (a duplicate). -/
def sampleEntryDup : PipelineEntry :=
  { sampleEntry with id := 4, status := "Shortlisted" }

/-- A pipeline entry belonging to a different applicant. -/
def sampleEntryOther : PipelineEntry :=
  { sampleEntry with id := 5, applicant_id := 8, full_name := "Mo" }

/-- A sample database in which applicant 7 has two pipeline rows and
applicant 8 has one. -/
def sampleDB2 : DB :=
  { job_posts := [sampleJob], job_application_forms := [],
    applicants := [sampleApplicant],
    shortlisted_candidates := [sampleEntry, sampleEntryDup, sampleEntryOther] }

/-- A pipeline entry for applicant 7 with status "Rejected". -/
def sampleEntryRejected : PipelineEntry :=
  { sampleEntry with id := 6, status := "Rejected" }

/-- A sample database with one "New Application" row and one "Rejected"
row, both for applicant 7. -/
def sampleDB5 : DB :=
  { job_posts := [sampleJob], job_application_forms := [],
    applicants := [sampleApplicant],
    shortlisted_candidates := [sampleEntry, sampleEntryRejected] }

/-- A well-formed sample submission: posting 1, full name and email
present, resume attached. -/
def sampleSubmitReq : SubmitReq :=
  { job_id := some 1
    basicFormData := BasicFormVal.val
      [{ label := some "Full Name", name := none, value := some "Jo" },
       { label := some "Email", name := none, value := some "jo@x.com" }]
    applicationFormData := AppFormVal.absent
    resume := some "cv.pdf" }

/-- A submission with no resume attached and a malformed `basicFormData`
JSON string. -/
def malformedNoResumeReq : SubmitReq :=
  { job_id := some 1
    basicFormData := BasicFormVal.malformed
    applicationFormData := AppFormVal.absent
    resume := none }

/-- A submission with a resume attached but no email field: the validation
check fails after multer has already written the file. -/
def missingEmailReq : SubmitReq :=
  { job_id := some 1
    basicFormData := BasicFormVal.val
      [{ label := some "Full Name", name := none, value := some "Jo" }]
    applicationFormData := AppFormVal.absent
    resume := some "cv.pdf" }

/-- A job-update request supplying only a new title. -/
def titleOnlyReq : JobPatchReq :=
  { title := some "Senior Engineer", slug := none, details := none, description := none,
    basicFormSchema := none, applicationFormSchema := none, applicationForm := none }

/-- A job-update request supplying the empty string as `details` — a
supplied but falsy value. -/
def emptyDetailsReq : JobPatchReq :=
  { title := none, slug := none, details := some (Json.str ""), description := none,
    basicFormSchema := none, applicationFormSchema := none, applicationForm := none }

/-- A sample form-schema row for posting 1. -/
def sampleForm : FormSchemaRow :=
  { id := 1, uuid := "f-1", job_post_id := 1,
    basicFormSchema := Json.arr [Json.str "q1"],
    applicationFormSchema := Json.obj [("steps", Json.arr [])] }

/-- A sample database with one posting and its form-schema row. -/
def sampleDB3 : DB :=
  { job_posts := [sampleJob], job_application_forms := [sampleForm],
    applicants := [], shortlisted_candidates := [] }

/-- A sample database with one posting, its form schema, one applicant and
one pipeline row. -/
def sampleDB4 : DB :=
  { job_posts := [sampleJob], job_application_forms := [sampleForm],
    applicants := [sampleApplicant], shortlisted_candidates := [sampleEntry] }

/-! ### List lemmas and handler characterizations -/

/-- Filtering a per-row conditional update by the same condition: the rows
that match are exactly the previously matching rows, each updated, as long
as the update does not change whether a row matches. -/
theorem filter_map_ite {α : Type} (l : List α) (q : α → Bool) (f : α → α)
    (hf : ∀ e, q (f e) = q e) :
    (l.map (fun e => if q e then f e else e)).filter q = (l.filter q).map f := by
  induction l with
  | nil => rfl
  | cons a l ih =>
    cases h : q a with
    | true => simp [List.filter_cons, h, hf, ih]
    | false => simp [List.filter_cons, h, ih]

/-- Rows not matching the condition of a per-row conditional update are
left unchanged. -/
theorem filter_not_map_ite {α : Type} (l : List α) (q : α → Bool) (f : α → α)
    (hf : ∀ e, q (f e) = q e) :
    (l.map (fun e => if q e then f e else e)).filter (fun e => !(q e)) =
      l.filter (fun e => !(q e)) := by
  induction l with
  | nil => rfl
  | cons a l ih =>
    cases h : q a with
    | true => simp [List.filter_cons, h, hf, ih]
    | false => simp [List.filter_cons, h, ih]

/-- Supplying at least one of the three request fields falsifies the
"no fields to update" guard. -/
theorem suppliedCond {s t n : Option String} (h : s.isSome ∨ t.isSome ∨ n.isSome) :
    (s.isNone && t.isNone && n.isNone) = false := by
  rcases h with h | h | h <;> cases s <;> cases t <;> cases n <;> simp_all

/-- The stage update never changes which applicant a row belongs to. -/
theorem applyStageUpdate_applicant_id (s t n : Option String) (e : PipelineEntry) :
    (applyStageUpdate s t n e).applicant_id = e.applicant_id := rfl

/-- Update branch, result state: with at least one prior row, the successor
state applies the supplied fields to every row of the applicant, leaving
all other rows alone. -/
theorem patchStage_update_snd (db : DB) (id : Nat) (s t n : Option String)
    (hne : entriesFor db id ≠ [])
    (hsup : (s.isNone && t.isNone && n.isNone) = false) :
    (patchApplicantStage db id s t n).2 =
      { db with shortlisted_candidates := db.shortlisted_candidates.map (fun e =>
          if e.applicant_id == id then applyStageUpdate s t n e else e) } := by
  have hE : (db.shortlisted_candidates.filter (fun e => e.applicant_id == id)).isEmpty = false := by
    cases hC : db.shortlisted_candidates.filter (fun e => e.applicant_id == id) with
    | nil => exact absurd hC hne
    | cons e es => rfl
  unfold patchApplicantStage
  simp only [hE, Bool.false_eq_true, if_false, hsup]
  split <;> (try split) <;> (try split) <;> rfl

/-! ### The claims -/

/-- After an update-branch stage update, the applicant's rows are exactly
the prior rows, each updated. -/
theorem entriesFor_patch_update (db : DB) (id : Nat) (s t n : Option String)
    (hne : entriesFor db id ≠ [])
    (hsup : (s.isNone && t.isNone && n.isNone) = false) :
    entriesFor (patchApplicantStage db id s t n).2 id =
      (entriesFor db id).map (applyStageUpdate s t n) := by
  have h2 := patchStage_update_snd db id s t n hne hsup
  rw [h2]
  simp only [entriesFor]
  rw [filter_map_ite db.shortlisted_candidates
    (fun e => e.applicant_id == id) (applyStageUpdate s t n) (fun e => rfl)]

/-- The lazy-create SELECT of the stage update (part_003 lines 989 to
992) names columns the applicants table does not define. -/
theorem stage_lazy_create_select_fails :
    applicantsSelectOk ["job_id", "full_name", "email", "phone"] = false := by
  decide

/-- C1: evaluation at the failing input.  Applicant 7 exists and has no
pipeline row, and the stage update supplies a field, yet the route answers
500 and inserts nothing: the lazy-create branch dies at its SELECT of the
non-existent applicants contact columns before any INSERT runs, so the
claimed lazily created PipelineEntry never appears and a second update
would fail the same way. -/
theorem stage_update_lazy_create_dead :
    sampleApplicant ∈ sampleDB1.applicants ∧
    sampleApplicant.id = 7 ∧
    entriesFor sampleDB1 7 = [] ∧
    applicantsSelectOk ["job_id", "full_name", "email", "phone"] = false ∧
    patchApplicantStage sampleDB1 7 (some "Shortlisted") none none = (500, sampleDB1) ∧
    entriesFor (patchApplicantStage sampleDB1 7 (some "Shortlisted") none none).2 7 = [] := by
  refine ⟨List.mem_cons_self _ _, rfl, rfl, by decide, rfl, rfl⟩

/-- C2: evaluation at the failing inputs.  The stage update never answers
200 or 404: with no shortlist row it dies at the lazy-create SELECT with
500 — whether the applicant exists (id 7) or not (id 9), so the claimed
404 is unreachable — and with an existing row the UPDATE commits but the
re-fetch selects the non-existent applicants contact and steps_json /
fields_json columns, so the route answers 500 instead of succeeding. -/
theorem stage_update_never_succeeds :
    (patchApplicantStage sampleDB2 7 (some "Interview") none none).1 = 500 ∧
    (patchApplicantStage sampleDB1 7 (some "Interview") none none).1 = 500 ∧
    (patchApplicantStage sampleDB1 9 (some "Interview") none none).1 = 500 ∧
    (500 : Nat) ≠ 200 ∧ (500 : Nat) ≠ 404 := by
  refine ⟨?_, rfl, rfl, by decide, by decide⟩
  rfl

/-- C10: when an applicant already has several pipeline rows (nothing in
the schema forbids it), a stage update supplying at least one field
applies the supplied fields to every one of those rows, leaving the rows
of all other applicants — and every other table — unchanged. -/
theorem stage_update_applies_to_all_duplicate_rows
    (db : DB) (id : Nat) (s t n : Option String)
    (hn : 2 ≤ (entriesFor db id).length)
    (hsup : s.isSome ∨ t.isSome ∨ n.isSome) :
    entriesFor (patchApplicantStage db id s t n).2 id =
      (entriesFor db id).map (applyStageUpdate s t n) ∧
    (entriesFor (patchApplicantStage db id s t n).2 id).length = (entriesFor db id).length ∧
    (patchApplicantStage db id s t n).2.shortlisted_candidates.filter
        (fun e => !(e.applicant_id == id)) =
      db.shortlisted_candidates.filter (fun e => !(e.applicant_id == id)) ∧
    (patchApplicantStage db id s t n).2.applicants = db.applicants ∧
    (patchApplicantStage db id s t n).2.job_posts = db.job_posts ∧
    (patchApplicantStage db id s t n).2.job_application_forms = db.job_application_forms := by
  have hne : entriesFor db id ≠ [] := by
    intro hC
    rw [hC] at hn
    simp at hn
  have hmain := entriesFor_patch_update db id s t n hne (suppliedCond hsup)
  have h2 := patchStage_update_snd db id s t n hne (suppliedCond hsup)
  refine ⟨hmain, ?_, ?_, ?_, ?_, ?_⟩
  · rw [hmain, List.length_map]
  · rw [h2]
    exact filter_not_map_ite db.shortlisted_candidates
      (fun e => e.applicant_id == id) (applyStageUpdate s t n) (fun e => rfl)
  · rw [h2]
  · rw [h2]
  · rw [h2]

/-- Witness for C10 at a concrete database with two duplicate rows. -/
theorem stage_update_applies_to_all_duplicate_rows_witness :
    2 ≤ (entriesFor sampleDB2 7).length ∧
    entriesFor (patchApplicantStage sampleDB2 7 none (some "Hired") none).2 7 =
      [applyStageUpdate none (some "Hired") none sampleEntry,
       applyStageUpdate none (some "Hired") none sampleEntryDup] ∧
    (patchApplicantStage sampleDB2 7 none (some "Hired") none).2.shortlisted_candidates.filter
        (fun e => !(e.applicant_id == 7)) = [sampleEntryOther] := by
  have h := stage_update_applies_to_all_duplicate_rows sampleDB2 7 none (some "Hired") none
    (by decide) (Or.inr (Or.inl rfl))
  refine ⟨by decide, ?_, ?_⟩
  · rw [h.1]
    rfl
  · rw [h.2.2.1]
    rfl

/-- C3: a resolvable submission (job id, full name, email, attached
resume) inserts, in one transaction, both the Applicant row and one
pipeline row seeded with rating 0, status "New Application", stage
"Application Screening"; if either INSERT fails nothing is persisted. -/
theorem submit_applicant_transactional
    (db : DB) (req : SubmitReq) (fail1 fail2 : Bool)
    (jid : Nat) (l : List BasicField) (fname : String)
    (hbfd : req.basicFormData = BasicFormVal.val l)
    (hafd : req.applicationFormData ≠ AppFormVal.malformed)
    (hjid : req.job_id = some jid)
    (hres : req.resume = some fname)
    (hname : fieldValue (findFullName l) ≠ "")
    (hemail : fieldValue (findEmail l) ≠ "") :
    (fail1 = false → fail2 = false →
      (submitApplicant db req fail1 fail2).code = 201 ∧
      (submitApplicant db req fail1 fail2).db.applicants = db.applicants ++
        [{ id := nextApplicantId db.applicants
           uuid := ""
           job_id := jid
           basicFormData := l
           applicationFormData := match req.applicationFormData with
             | AppFormVal.val j => j
             | _ => Json.obj []
           resume_path := some ("/uploads/resumes/" ++ fname) }] ∧
      (submitApplicant db req fail1 fail2).db.shortlisted_candidates =
        db.shortlisted_candidates ++
        [{ id := nextScId db.shortlisted_candidates
           job_post_id := jid
           applicant_id := nextApplicantId db.applicants
           full_name := fieldValue (findFullName l)
           email := fieldValue (findEmail l)
           phone := fieldValue (findPhone l)
           rating := 0
           status := "New Application"
           stage := "Application Screening"
           note := none }] ∧
      (submitApplicant db req fail1 fail2).db.job_posts = db.job_posts ∧
      (submitApplicant db req fail1 fail2).db.job_application_forms =
        db.job_application_forms) ∧
    (fail1 = true ∨ fail2 = true →
      (submitApplicant db req fail1 fail2).code = 500 ∧
      (submitApplicant db req fail1 fail2).db = db) := by
  obtain ⟨rjid, rbfd, rafd, rres⟩ := req
  simp only at hbfd hjid hres hafd
  subst hbfd
  subst hjid
  subst hres
  have hnb : (fieldValue ((some l).bind findFullName) == "") = false := by
    simp only [beq_eq_false_iff_ne, ne_eq]
    exact hname
  have heb : (fieldValue ((some l).bind findEmail) == "") = false := by
    simp only [beq_eq_false_iff_ne, ne_eq]
    exact hemail
  cases rafd with
  | malformed => exact absurd rfl hafd
  | val j =>
    constructor
    · intro h1 h2
      subst h1
      subst h2
      unfold submitApplicant
      simp only [hnb, heb, Bool.or_self, Bool.false_eq_true, if_false]
      refine ⟨?_, ?_, ?_, ?_, ?_⟩ <;> trivial
    · intro hf
      unfold submitApplicant
      simp only [hnb, heb, Bool.or_self, Bool.false_eq_true, if_false]
      have : (fail1 || fail2) = true := by
        rcases hf with hf | hf <;> subst hf <;> simp
      rw [this]
      exact ⟨rfl, rfl⟩
  | absent =>
    constructor
    · intro h1 h2
      subst h1
      subst h2
      unfold submitApplicant
      simp only [hnb, heb, Bool.or_self, Bool.false_eq_true, if_false]
      refine ⟨?_, ?_, ?_, ?_, ?_⟩ <;> trivial
    · intro hf
      unfold submitApplicant
      simp only [hnb, heb, Bool.or_self, Bool.false_eq_true, if_false]
      have : (fail1 || fail2) = true := by
        rcases hf with hf | hf <;> subst hf <;> simp
      rw [this]
      exact ⟨rfl, rfl⟩

/-- Witness for C3 at a concrete request: the transaction succeeds and
appends one row to each of the two tables; with a failing statement the
state is unchanged. -/
theorem submit_applicant_transactional_witness :
    (submitApplicant sampleDB1 sampleSubmitReq false false).code = 201 ∧
    (submitApplicant sampleDB1 sampleSubmitReq false false).db.applicants.length = 2 ∧
    (submitApplicant sampleDB1 sampleSubmitReq false false).db.shortlisted_candidates.length = 1 ∧
    (submitApplicant sampleDB1 sampleSubmitReq true false).db = sampleDB1 := by
  have h := submit_applicant_transactional sampleDB1 sampleSubmitReq false false 1
    [{ label := some "Full Name", name := none, value := some "Jo" },
     { label := some "Email", name := none, value := some "jo@x.com" }] "cv.pdf"
    rfl (by intro h; cases h) rfl rfl (by decide) (by decide)
  have hfail := (submit_applicant_transactional sampleDB1 sampleSubmitReq true false 1
    [{ label := some "Full Name", name := none, value := some "Jo" },
     { label := some "Email", name := none, value := some "jo@x.com" }] "cv.pdf"
    rfl (by intro h; cases h) rfl rfl (by decide) (by decide)).2 (Or.inl rfl)
  obtain ⟨hok, -⟩ := h
  obtain ⟨hcode, happ, hsc, -, -⟩ := hok rfl rfl
  refine ⟨hcode, ?_, ?_, hfail.2⟩
  · rw [happ]
    rfl
  · rw [hsc]
    rfl

/-- Counterexample to C4 as stated: a request with no resume attached
whose `basicFormData` string fails `JSON.parse` is answered with 500, not
with a 400 validation error (the database is still untouched). -/
theorem submit_without_resume_counterexample :
    malformedNoResumeReq.resume = none ∧
    (submitApplicant sampleDB1 malformedNoResumeReq false false).code = 500 ∧
    (submitApplicant sampleDB1 malformedNoResumeReq false false).code ≠ 400 ∧
    (submitApplicant sampleDB1 malformedNoResumeReq false false).db = sampleDB1 := by
  refine ⟨rfl, rfl, ?_, rfl⟩
  intro h
  simp [submitApplicant, malformedNoResumeReq] at h

/-- C4 (amended): a submission with no resume attached fails with a 400
validation error provided its form-data fields are not malformed JSON
strings (a malformed field fails with 500 instead); in every case the
database is unchanged. -/
theorem submit_without_resume_no_writes
    (db : DB) (req : SubmitReq) (fail1 fail2 : Bool)
    (hres : req.resume = none) :
    (submitApplicant db req fail1 fail2).db = db ∧
    (req.basicFormData ≠ BasicFormVal.malformed →
      req.applicationFormData ≠ AppFormVal.malformed →
      (submitApplicant db req fail1 fail2).code = 400) := by
  obtain ⟨rjid, rbfd, rafd, rres⟩ := req
  simp only at hres
  subst hres
  cases rbfd <;> cases rafd <;>
    first
    | exact ⟨rfl, fun hb ha => absurd rfl hb⟩
    | exact ⟨rfl, fun hb ha => absurd rfl ha⟩
    | (cases rjid with
       | none => exact ⟨rfl, fun _ _ => rfl⟩
       | some jid =>
          constructor
          · unfold submitApplicant
            dsimp only
            split <;> rfl
          · intro hb ha
            unfold submitApplicant
            dsimp only
            split <;> rfl)

/-- Witness for C4 (amended) at a concrete request: no resume, well-formed
fields, 400 and unchanged state. -/
theorem submit_without_resume_no_writes_witness :
    (submitApplicant sampleDB1
      { job_id := some 1, basicFormData := BasicFormVal.val [],
        applicationFormData := AppFormVal.absent, resume := none } false false).db = sampleDB1 ∧
    (submitApplicant sampleDB1
      { job_id := some 1, basicFormData := BasicFormVal.val [],
        applicationFormData := AppFormVal.absent, resume := none } false false).code = 400 := by
  have h := submit_without_resume_no_writes sampleDB1
    { job_id := some 1, basicFormData := BasicFormVal.val [],
      applicationFormData := AppFormVal.absent, resume := none } false false rfl
  exact ⟨h.1, h.2 (by intro hc; cases hc) (by intro hc; cases hc)⟩

/-- Counterexample to C7 as stated: a request whose resume file was
written but which then fails the field validation (no email) is answered
with 400 and the uploaded file is left on disk — it is not removed. -/
theorem submit_failure_file_cleanup_counterexample :
    missingEmailReq.resume = some "cv.pdf" ∧
    (submitApplicant sampleDB1 missingEmailReq false false).code = 400 ∧
    (submitApplicant sampleDB1 missingEmailReq false false).fileKept = true ∧
    (submitApplicant sampleDB1 missingEmailReq false false).db = sampleDB1 := by
  refine ⟨rfl, ?_, ?_, rfl⟩ <;> rfl

/-- C7 (amended): when a submission fails with a caught exception (500 —
malformed form data or a failing transaction statement) the uploaded file
is removed and the transaction rolled back; a validation failure (400)
leaves the uploaded file in place; on every failure no database rows from
the request persist. -/
theorem submit_failure_rollback_and_cleanup
    (db : DB) (req : SubmitReq) (fail1 fail2 : Bool) :
    ((submitApplicant db req fail1 fail2).code = 500 →
      (submitApplicant db req fail1 fail2).fileKept = false) ∧
    ((submitApplicant db req fail1 fail2).code ≠ 201 →
      (submitApplicant db req fail1 fail2).db = db) := by
  obtain ⟨rjid, rbfd, rafd, rres⟩ := req
  cases rbfd <;> cases rafd <;>
    first
    | exact ⟨(fun _ => rfl), (fun _ => rfl)⟩
    | (cases rjid with
       | none => exact ⟨(fun h => by cases h), (fun _ => rfl)⟩
       | some jid =>
          cases rres with
          | none =>
            constructor
            · unfold submitApplicant
              dsimp only
              split
              · intro h
                cases h
              · intro h
                cases h
            · unfold submitApplicant
              dsimp only
              split <;> exact fun _ => rfl
          | some fname =>
            constructor
            · unfold submitApplicant
              dsimp only
              split
              · intro h
                cases h
              · split
                · exact fun _ => rfl
                · intro h
                  cases h
            · unfold submitApplicant
              dsimp only
              split
              · exact fun _ => rfl
              · split
                · exact fun _ => rfl
                · intro h
                  exact absurd rfl h)

/-- Witness for C7 (amended) at a concrete request: a failing transaction
statement yields 500, the file is removed and the state is unchanged. -/
theorem submit_failure_rollback_and_cleanup_witness :
    (submitApplicant sampleDB1 sampleSubmitReq true false).code = 500 ∧
    (submitApplicant sampleDB1 sampleSubmitReq true false).fileKept = false ∧
    (submitApplicant sampleDB1 sampleSubmitReq true false).db = sampleDB1 := by
  have h := submit_failure_rollback_and_cleanup sampleDB1 sampleSubmitReq true false
  exact ⟨rfl, h.1 rfl, h.2 (by intro hc; cases hc)⟩

/-- Membership in a filtered status view: exactly the pipeline rows whose
applicant and posting exist and whose status equals the literal,
character for character. -/
theorem mem_statusView (db : DB) (statusLit : String) (e : PipelineEntry) :
    e ∈ statusView db statusLit ↔
      e ∈ db.shortlisted_candidates ∧
      (∃ a ∈ db.applicants, a.id = e.applicant_id) ∧
      (∃ j ∈ db.job_posts, j.id = e.job_post_id) ∧
      e.status = statusLit := by
  simp [statusView, List.mem_filter, List.any_eq_true, and_assoc]

/-- Counterexample to C5 as stated: a pipeline row with status
"Shortlisted", whose applicant and posting both exist, is not returned by
the shortlisted lister — that lister's query selects the non-existent
applicants steps_json / fields_json columns, so it always answers 500
with no rows. -/
theorem shortlisted_lister_counterexample :
    sampleEntryDup ∈ sampleDB2.shortlisted_candidates ∧
    sampleEntryDup.status = "Shortlisted" ∧
    sampleApplicant ∈ sampleDB2.applicants ∧
    sampleApplicant.id = sampleEntryDup.applicant_id ∧
    sampleJob ∈ sampleDB2.job_posts ∧
    sampleJob.id = sampleEntryDup.job_post_id ∧
    shortlistedView sampleDB2 = (500, []) ∧
    sampleEntryDup ∉ (shortlistedView sampleDB2).2 := by
  refine ⟨?_, rfl, ?_, rfl, ?_, rfl, rfl, ?_⟩
  · exact List.mem_cons_of_mem _ (List.mem_cons_self _ _)
  · exact List.mem_cons_self _ _
  · exact List.mem_cons_self _ _
  · intro h
    exact absurd h (List.not_mem_nil _)

/-- C5 (amended): the rejected and hired listers answer 200 with exactly
the pipeline rows (joined with an existing Applicant and JobPosting) whose
status equals, character for character, "Rejected" / "Hired", every other
status value being excluded from both; the shortlisted lister's query
selects the non-existent applicants steps_json / fields_json columns, so
it always answers 500 and returns no rows. -/
theorem filtered_views_exact_status (db : DB) (e : PipelineEntry) :
    (rejectedView db).1 = 200 ∧
    (e ∈ (rejectedView db).2 ↔
      e ∈ db.shortlisted_candidates ∧
      (∃ a ∈ db.applicants, a.id = e.applicant_id) ∧
      (∃ j ∈ db.job_posts, j.id = e.job_post_id) ∧
      e.status = "Rejected") ∧
    (hiredView db).1 = 200 ∧
    (e ∈ (hiredView db).2 ↔
      e ∈ db.shortlisted_candidates ∧
      (∃ a ∈ db.applicants, a.id = e.applicant_id) ∧
      (∃ j ∈ db.job_posts, j.id = e.job_post_id) ∧
      e.status = "Hired") ∧
    (e.status ≠ "Rejected" → e ∉ (rejectedView db).2) ∧
    (e.status ≠ "Hired" → e ∉ (hiredView db).2) ∧
    shortlistedView db = (500, []) ∧
    e ∉ (shortlistedView db).2 := by
  have hr : rejectedView db = (200, statusView db "Rejected") := rfl
  have hh : hiredView db = (200, statusView db "Hired") := rfl
  have hs : shortlistedView db = (500, []) := rfl
  refine ⟨by rw [hr], ?_, by rw [hh], ?_, ?_, ?_, hs, ?_⟩
  · rw [hr]
    exact mem_statusView db "Rejected" e
  · rw [hh]
    exact mem_statusView db "Hired" e
  · intro hne hmem
    rw [hr] at hmem
    exact hne ((mem_statusView db "Rejected" e).mp hmem).2.2.2
  · intro hne hmem
    rw [hh] at hmem
    exact hne ((mem_statusView db "Hired" e).mp hmem).2.2.2
  · intro hmem
    rw [hs] at hmem
    exact absurd hmem (List.not_mem_nil e)

/-- Witness for C5 (amended) at a concrete database: the "Rejected" row is
returned by the rejected lister with 200, the "New Application" row is in
neither the rejected nor the hired view, and the shortlisted lister
answers 500 with no rows. -/
theorem filtered_views_exact_status_witness :
    (rejectedView sampleDB5).1 = 200 ∧
    sampleEntryRejected ∈ (rejectedView sampleDB5).2 ∧
    sampleEntry ∉ (rejectedView sampleDB5).2 ∧
    sampleEntry ∉ (hiredView sampleDB5).2 ∧
    shortlistedView sampleDB5 = (500, []) := by
  have h := filtered_views_exact_status sampleDB5 sampleEntryRejected
  have h2 := filtered_views_exact_status sampleDB5 sampleEntry
  refine ⟨h.1, ?_, ?_, ?_, h.2.2.2.2.2.2.1⟩
  · refine (h.2.1).mpr ⟨?_, ⟨sampleApplicant, ?_, rfl⟩, ⟨sampleJob, ?_, rfl⟩, rfl⟩
    · exact List.mem_cons_of_mem _ (List.mem_cons_self _ _)
    · exact List.mem_cons_self _ _
    · exact List.mem_cons_self _ _
  · exact h2.2.2.2.2.1 (by decide)
  · exact h2.2.2.2.2.2.1 (by decide)

/-- Pushing `List.find?` through a per-row conditional update that
preserves the condition: the first matching row is the updated first
matching row. -/
theorem find?_map_ite {α : Type} (l : List α) (q : α → Bool) (f : α → α)
    (hf : ∀ e, q (f e) = q e) :
    (l.map (fun e => if q e then f e else e)).find? q = (l.find? q).map f := by
  induction l with
  | nil => rfl
  | cons a l ih =>
    cases h : q a with
    | true => simp [List.find?_cons, h, hf]
    | false => simp [List.find?_cons, h, ih]

/-- Rows untouched by a per-row conditional update stay in the list. -/
theorem mem_map_ite_of_neg {α : Type} {l : List α} {q : α → Bool} {f : α → α} {e : α}
    (he : e ∈ l) (hq : q e = false) :
    e ∈ l.map (fun x => if q x then f x else x) :=
  List.mem_map.mpr ⟨e, he, by simp [hq]⟩

/-- Counterexample to C6 as stated: a PATCH supplying `details` with the
(falsy) empty-string value does not take the supplied value — the stored
details keep their prior value. -/
theorem job_update_supplied_field_counterexample :
    emptyDetailsReq.details = some (Json.str "") ∧
    (patchJob sampleDB3 1 emptyDetailsReq).2.job_posts = [sampleJob] ∧
    sampleJob.details ≠ Json.str "" := by
  refine ⟨rfl, rfl, ?_⟩
  intro h
  exact Json.noConfusion h

/-- C6 (amended): on an existing posting, `title` and `slug` take any
supplied value and keep their prior value when absent (or null), while
`details` and `description` take the supplied value only when it is
truthy, keeping the prior value otherwise (so a supplied falsy value such
as "" or null is also kept); the posting's form-schema rows are
overwritten on every update call, set to the empty defaults [] and {}
when the schema fields are unsupplied or falsy. -/
theorem job_update_partial_merge_schema_overwrite
    (db : DB) (id : Nat) (r : JobPatchReq) (j : JobPosting)
    (hfind : db.job_posts.find? (fun x => x.id == id) = some j) :
    (patchJob db id r).1 = 200 ∧
    (patchJob db id r).2.job_posts.find? (fun x => x.id == id) =
      some { j with job_title := r.title.getD j.job_title
                    slug := r.slug.getD j.slug
                    details := jsKeep r.details j.details
                    description := jsKeep r.description j.description } ∧
    (∀ p ∈ db.job_posts, p.id ≠ id → p ∈ (patchJob db id r).2.job_posts) ∧
    (∀ g ∈ (patchJob db id r).2.job_application_forms, g.job_post_id = id →
      g.basicFormSchema = jsOrDefault r.basicFormSchema (Json.arr []) ∧
      g.applicationFormSchema =
        jsOrDefault (jsOr r.applicationFormSchema r.applicationForm) (Json.obj [])) ∧
    (∀ g ∈ db.job_application_forms, g.job_post_id ≠ id →
      g ∈ (patchJob db id r).2.job_application_forms) ∧
    (r.basicFormSchema = none → jsOrDefault r.basicFormSchema (Json.arr []) = Json.arr []) ∧
    (r.applicationFormSchema = none → r.applicationForm = none →
      jsOrDefault (jsOr r.applicationFormSchema r.applicationForm) (Json.obj []) =
        Json.obj []) := by
  unfold patchJob
  rw [hfind]
  refine ⟨rfl, ?_, ?_, ?_, ?_, ?_, ?_⟩
  · rw [find?_map_ite db.job_posts (fun x => x.id == id)
      (fun x => { x with job_title := r.title.getD j.job_title
                         slug := r.slug.getD j.slug
                         details := jsKeep r.details j.details
                         description := jsKeep r.description j.description }) (fun e => rfl)]
    rw [hfind]
    rfl
  · intro p hp hpid
    exact mem_map_ite_of_neg hp (by simp [hpid])
  · intro g hg hgid
    obtain ⟨x, hx, hgx⟩ := List.mem_map.mp hg
    by_cases hq : (x.job_post_id == id) = true
    · rw [if_pos hq] at hgx
      subst hgx
      exact ⟨rfl, rfl⟩
    · rw [if_neg hq] at hgx
      subst hgx
      simp only [beq_iff_eq] at hq
      exact absurd hgid hq
  · intro g hg hgid
    exact mem_map_ite_of_neg hg (by simp [hgid])
  · intro h
    rw [h]
    rfl
  · intro h1 h2
    rw [jsOr, h1, h2]
    rfl

/-- Witness for C6 (amended) at a concrete database: a title-only update
leaves the other posting fields intact and resets the form-schema row to
the empty defaults. -/
theorem job_update_partial_merge_schema_overwrite_witness :
    (patchJob sampleDB3 1 titleOnlyReq).2.job_posts.find? (fun x => x.id == 1) =
      some { sampleJob with job_title := "Senior Engineer" } ∧
    (patchJob sampleDB3 1 titleOnlyReq).2.job_application_forms =
      [{ sampleForm with basicFormSchema := Json.arr [],
                         applicationFormSchema := Json.obj [] }] := by
  have h := job_update_partial_merge_schema_overwrite sampleDB3 1 titleOnlyReq sampleJob rfl
  exact ⟨h.2.1, rfl⟩

/-- C9: deleting an existing posting succeeds and, per the schema's
ON DELETE CASCADE edges, removes its form-schema rows, all its applicants,
and every pipeline row referencing the posting or one of its applicants:
subsequent lookups by the posting's id come back empty. -/
theorem job_delete_cascades (db : DB) (id : Nat)
    (hex : ∃ j ∈ db.job_posts, j.id = id) :
    (deleteJob db id).1 = 200 ∧
    (∀ j ∈ (deleteJob db id).2.job_posts, j.id ≠ id) ∧
    (∀ g ∈ (deleteJob db id).2.job_application_forms, g.job_post_id ≠ id) ∧
    (∀ a ∈ (deleteJob db id).2.applicants, a.job_id ≠ id) ∧
    (∀ e ∈ (deleteJob db id).2.shortlisted_candidates, e.job_post_id ≠ id) ∧
    (∀ e ∈ (deleteJob db id).2.shortlisted_candidates,
      ∀ a ∈ db.applicants, a.job_id = id → e.applicant_id ≠ a.id) := by
  have hany : db.job_posts.any (fun j => j.id == id) = true := by
    obtain ⟨j, hj, hid⟩ := hex
    exact List.any_eq_true.mpr ⟨j, hj, by simp [hid]⟩
  have hstep : deleteJob db id = (200,
     { job_posts := db.job_posts.filter (fun j => !(j.id == id))
       job_application_forms := db.job_application_forms.filter (fun f => !(f.job_post_id == id))
       applicants := db.applicants.filter (fun a => !(a.job_id == id))
       shortlisted_candidates := db.shortlisted_candidates.filter (fun e =>
         !(e.job_post_id == id) &&
         !(db.applicants.any (fun a => (a.job_id == id) && (a.id == e.applicant_id)))) }) := by
    unfold deleteJob
    simp [hany]
  rw [hstep]
  refine ⟨rfl, ?_, ?_, ?_, ?_, ?_⟩
  · intro j hj
    have hp := (List.mem_filter.mp hj).2
    simpa using hp
  · intro g hg
    have hp := (List.mem_filter.mp hg).2
    simpa using hp
  · intro a ha
    have hp := (List.mem_filter.mp ha).2
    simpa using hp
  · intro e he
    have hp := (List.mem_filter.mp he).2
    simp only [Bool.and_eq_true] at hp
    simpa using hp.1
  · intro e he a ha hjob
    have hp := (List.mem_filter.mp he).2
    simp only [Bool.and_eq_true, Bool.not_eq_true'] at hp
    have hall := List.any_eq_false.mp hp.2 a ha
    simp only [Bool.and_eq_true, not_and, beq_iff_eq] at hall
    intro hid
    exact hall hjob hid.symm

/-- Witness for C9 at a concrete database: after deleting posting 1 every
table is empty. -/
theorem job_delete_cascades_witness :
    (deleteJob sampleDB4 1).1 = 200 ∧
    (deleteJob sampleDB4 1).2.job_posts = [] ∧
    (deleteJob sampleDB4 1).2.job_application_forms = [] ∧
    (deleteJob sampleDB4 1).2.applicants = [] ∧
    (deleteJob sampleDB4 1).2.shortlisted_candidates = [] := by
  have h := job_delete_cascades sampleDB4 1 ⟨sampleJob, by simp [sampleDB4], rfl⟩
  exact ⟨h.1, rfl, rfl, rfl, rfl⟩

/-- The regex test, read back as a proposition over the password's
characters. -/
theorem passwordRegexTest_iff (p : String) :
    passwordRegexTest p = true ↔
      (8 ≤ p.data.length ∧ (∀ c ∈ p.data, isPasswordChar c = true) ∧
       (∃ c ∈ p.data, c.isLower = true) ∧ (∃ c ∈ p.data, c.isUpper = true) ∧
       (∃ c ∈ p.data, c.isDigit = true) ∧ (∃ c ∈ p.data, isPasswordSymbol c = true)) := by
  unfold passwordRegexTest
  simp [List.all_eq_true, List.any_eq_true, and_assoc]

/-- Counterexample to C8 as stated: the password "Aa1!aaa_" satisfies the
spec's policy (8 characters, one lowercase, one uppercase, one digit, one
symbol of the fixed set) yet signup rejects it with the password
ValidationError, because the regex also confines every character to
letters, digits and the fixed symbols, and the underscore is outside that
class. -/
theorem signup_password_policy_counterexample :
    specPasswordPolicy "Aa1!aaa_" = true ∧
    (signup [] "new@x.com" "Aa1!aaa_").1 = SignupResult.passwordInvalid := by
  exact ⟨by decide, by decide⟩

/-- C8 (amended): signup fails with the password ValidationError exactly
when the password does not satisfy: at least 8 characters, every character
a letter, digit or one of !@#$%^&*, and at least one lowercase, one
uppercase, one digit and one of those symbols. -/
theorem signup_validation_iff_password_regex (users : List AdminUser) (email p : String) :
    (signup users email p).1 = SignupResult.passwordInvalid ↔
      ¬ (8 ≤ p.data.length ∧ (∀ c ∈ p.data, isPasswordChar c = true) ∧
         (∃ c ∈ p.data, c.isLower = true) ∧ (∃ c ∈ p.data, c.isUpper = true) ∧
         (∃ c ∈ p.data, c.isDigit = true) ∧ (∃ c ∈ p.data, isPasswordSymbol c = true)) := by
  constructor
  · intro h hP
    have ht := (passwordRegexTest_iff p).mpr hP
    unfold signup at h
    rw [ht] at h
    simp only [Bool.not_true, Bool.false_eq_true, if_false] at h
    split at h <;> exact SignupResult.noConfusion h
  · intro hP
    have ht : passwordRegexTest p = false := by
      cases hc : passwordRegexTest p
      · rfl
      · exact absurd ((passwordRegexTest_iff p).mp hc) hP
    unfold signup
    rw [ht]
    rfl

/-- Witness for C8 (amended): a password made only of allowed characters
with all four classes present is not rejected by the policy check. -/
theorem signup_validation_iff_password_regex_witness :
    (signup [] "new@x.com" "Aa1!aaaa").1 ≠ SignupResult.passwordInvalid := by
  have h := signup_validation_iff_password_regex [] "new@x.com" "Aa1!aaaa"
  intro hc
  exact (h.mp hc) (by decide)
